import Mathlib

/-!
Verification of the electricity-usage analysis pipeline.

The program is a single dashboard script (src/app.py). Its computational
core is embedded here shallowly:

* dates are modelled as integers counting whole days (the source works at
  day resolution: `(end_date - start_date).days`), with day/month/year
  conversion given by the standard civil-calendar arithmetic;
* meter values, tariff rates and costs are modelled as rationals — the
  source computes with Python floats, whose idealised (exact) arithmetic
  the rationals represent;
* fallible steps (CSV parsing, the annual projection's zero-span guard)
  return Option.
-/

/-- One observed meter value (a row of the parsed CSV): date (as a day
number), reading type (free-text category), cumulative value, provenance. -/
structure Reading where
  date : ℤ
  rtype : String
  value : ℚ
  source : String
deriving DecidableEq, Repr

/-- One derived daily-usage sample: the per-day average assigned by the
interpolator to one calendar day for one reading type. -/
structure DailyUsagePoint where
  date : ℤ
  rtype : String
  usage : ℚ
deriving DecidableEq, Repr

/-- The per-pair average of src/app.py line 101:
`daily_avg = reading_diff / days_diff if days_diff > 0 else 0`. -/
def daily_avg (r1 r2 : Reading) : ℚ :=
  if 0 < r2.date - r1.date then (r2.value - r1.value) / ((r2.date - r1.date : ℤ) : ℚ) else 0

/-- The inner loop of src/app.py lines 96-110: for one consecutive pair of
readings, one DailyUsagePoint per day in `[r1.date, r2.date)` (the end date
excluded: `for day in range(days_diff)`), each carrying `daily_avg`. -/
def pairUsage (rt : String) (r1 r2 : Reading) : List DailyUsagePoint :=
  (List.range (r2.date - r1.date).toNat).map
    (fun (day : ℕ) => { date := r1.date + (day : ℤ), rtype := rt, usage := daily_avg r1 r2 })

/-- The interpolator of src/app.py lines 93-110 for a single reading type:
walk the consecutive pairs (`for i in range(1, len(type_df))`) of the sorted
reading list and emit each pair's daily points.  Fewer than two readings
yield no points. -/
def daily_usage_data (rt : String) : List Reading → List DailyUsagePoint
  | r1 :: r2 :: rest => pairUsage rt r1 r2 ++ daily_usage_data rt (r2 :: rest)
  | _ => []

/-- Division that refuses a zero denominator, used to express that the
source's guarded division (line 101) is only ever taken on a positive span. -/
def safeDiv (a b : ℚ) : Option ℚ := if b = 0 then none else some (a / b)

/-- `daily_avg` with its division checked: `none` would mean the code
divides by zero. -/
def daily_avg_checked (r1 r2 : Reading) : Option ℚ :=
  if 0 < r2.date - r1.date then safeDiv (r2.value - r1.value) ((r2.date - r1.date : ℤ) : ℚ)
  else some 0

lemma sum_map_const {α : Type} (l : List α) (c : ℚ) :
    (l.map (fun _ => c)).sum = l.length * c := by
  induction l with
  | nil => simp
  | cons a t ih => simp [ih]; ring

lemma pairUsage_usage (rt : String) (r1 r2 : Reading) :
    ∀ p ∈ pairUsage rt r1 r2, p.usage = daily_avg r1 r2 := by
  intro p hp
  rcases List.mem_map.mp hp with ⟨day, _, rfl⟩
  rfl

lemma pairUsage_length (rt : String) (r1 r2 : Reading) :
    (pairUsage rt r1 r2).length = (r2.date - r1.date).toNat := by
  unfold pairUsage
  rw [List.length_map, List.length_range]

/-- Claim C1: for a consecutive pair of same-type readings with dates
`d1 < d2` and values `v1 <= v2`, the interpolator's points for that pair sum
to exactly `v2 - v1`, cover `(d2 - d1)` days, and each day receives the same
value `(v2 - v1) / (d2 - d1)`; the full interpolation of the type is the
concatenation of the per-pair emissions. -/
theorem claim_C1 (rt : String) (r1 r2 : Reading) (rest : List Reading)
    (hd : r1.date < r2.date) (_hv : r1.value ≤ r2.value) :
    ((pairUsage rt r1 r2).map (fun p => p.usage)).sum = r2.value - r1.value ∧
    (pairUsage rt r1 r2).length = (r2.date - r1.date).toNat ∧
    (∀ p ∈ pairUsage rt r1 r2,
      p.usage = (r2.value - r1.value) / ((r2.date - r1.date : ℤ) : ℚ)) ∧
    daily_usage_data rt (r1 :: r2 :: rest) = pairUsage rt r1 r2 ++ daily_usage_data rt (r2 :: rest) := by
  have hpos : 0 < r2.date - r1.date := by omega
  have havg : daily_avg r1 r2 = (r2.value - r1.value) / ((r2.date - r1.date : ℤ) : ℚ) := by
    simp [daily_avg, hpos]
  refine ⟨?_, pairUsage_length rt r1 r2, ?_, rfl⟩
  · have hne : ((r2.date - r1.date : ℤ) : ℚ) ≠ 0 := by
      exact_mod_cast Int.ne_of_gt hpos
    have hcast : (((r2.date - r1.date).toNat : ℕ) : ℚ) = ((r2.date - r1.date : ℤ) : ℚ) := by
      have : ((r2.date - r1.date).toNat : ℤ) = r2.date - r1.date := Int.toNat_of_nonneg (by omega)
      exact_mod_cast congrArg (fun z : ℤ => (z : ℚ)) this
    calc ((pairUsage rt r1 r2).map (fun p => p.usage)).sum
        = ((pairUsage rt r1 r2).map (fun _ => daily_avg r1 r2)).sum := by
          apply congrArg List.sum
          apply List.map_congr_left
          intro p hp
          exact pairUsage_usage rt r1 r2 p hp
      _ = ((pairUsage rt r1 r2).length : ℚ) * daily_avg r1 r2 := sum_map_const _ _
      _ = ((r2.date - r1.date : ℤ) : ℚ) * ((r2.value - r1.value) / ((r2.date - r1.date : ℤ) : ℚ)) := by
          rw [pairUsage_length, havg, hcast]
      _ = r2.value - r1.value := by
          rw [mul_comm]
          exact div_mul_cancel₀ _ hne
  · intro p hp
    rw [pairUsage_usage rt r1 r2 p hp, havg]

/-- Witness for C1 at a concrete pair: readings of value 0 and 30 ten days
apart sum to 30. -/
theorem claim_C1_witness :
    ((pairUsage "anytime" ⟨0, "anytime", 0, "manual"⟩ ⟨10, "anytime", 30, "manual"⟩).map
      (fun p => p.usage)).sum = (30 : ℚ) - 0 :=
  (claim_C1 "anytime" ⟨0, "anytime", 0, "manual"⟩ ⟨10, "anytime", 30, "manual"⟩ []
    (by decide) (by decide)).1

/-- Claim C6: a zero-day span (two same-day readings) never divides by zero —
the checked average is `some 0`, the pair emits no points — and in general the
guarded division of line 101 never has a zero denominator. -/
theorem claim_C6 (rt : String) (r1 r2 : Reading) (h : r1.date = r2.date) :
    daily_avg_checked r1 r2 = some 0 ∧
    pairUsage rt r1 r2 = [] ∧
    (∀ s1 s2 : Reading, daily_avg_checked s1 s2 ≠ none) ∧
    (∀ s1 s2 : Reading, daily_avg_checked s1 s2 = some (daily_avg s1 s2)) := by
  have hz : r2.date - r1.date = 0 := by omega
  have hall : ∀ s1 s2 : Reading, daily_avg_checked s1 s2 = some (daily_avg s1 s2) := by
    intro s1 s2
    by_cases hpos : 0 < s2.date - s1.date
    · have hne : ((s2.date - s1.date : ℤ) : ℚ) ≠ 0 := by
        exact_mod_cast Int.ne_of_gt hpos
      unfold daily_avg_checked daily_avg safeDiv
      rw [if_pos hpos, if_neg hne, if_pos hpos]
    · simp [daily_avg_checked, daily_avg, hpos]
  refine ⟨?_, ?_, fun s1 s2 => by rw [hall s1 s2]; exact Option.some_ne_none _, hall⟩
  · simp [daily_avg_checked, hz]
  · simp [pairUsage, hz]

/-- Witness for C6 at two same-day readings with different values. -/
theorem claim_C6_witness :
    daily_avg_checked ⟨5, "solar", 100, "bill"⟩ ⟨5, "solar", 120, "manual"⟩ = some 0 :=
  (claim_C6 "solar" ⟨5, "solar", 100, "bill"⟩ ⟨5, "solar", 120, "manual"⟩ rfl).1

/-- Claim C9: duplicate-date same-type rows are kept (neither deduplicated
nor rejected): the zero-span pair they form emits no point, and the interval
that follows is interpolated from the later row's value in sorted order. -/
theorem claim_C9 (rt : String) (r1 r2 : Reading) (rest : List Reading)
    (h : r1.date = r2.date) :
    daily_usage_data rt (r1 :: r2 :: rest) = daily_usage_data rt (r2 :: rest) ∧
    (∀ r3 : Reading, r2.date < r3.date →
      (∀ p ∈ pairUsage rt r2 r3,
        p.usage = (r3.value - r2.value) / ((r3.date - r2.date : ℤ) : ℚ)) ∧
      daily_usage_data rt [r1, r2, r3] = pairUsage rt r2 r3) := by
  have hz : r2.date - r1.date = 0 := by omega
  have hempty : pairUsage rt r1 r2 = [] := by simp [pairUsage, hz]
  constructor
  · show pairUsage rt r1 r2 ++ daily_usage_data rt (r2 :: rest) = daily_usage_data rt (r2 :: rest)
    rw [hempty, List.nil_append]
  · intro r3 h3
    have havg : daily_avg r2 r3 = (r3.value - r2.value) / ((r3.date - r2.date : ℤ) : ℚ) := by
      have hpos : 0 < r3.date - r2.date := by omega
      simp [daily_avg, hpos]
    refine ⟨fun p hp => by rw [pairUsage_usage rt r2 r3 p hp, havg], ?_⟩
    show pairUsage rt r1 r2 ++ (pairUsage rt r2 r3 ++ daily_usage_data rt [r3]) = pairUsage rt r2 r3
    rw [hempty, List.nil_append]
    show pairUsage rt r2 r3 ++ [] = pairUsage rt r2 r3
    exact List.append_nil _

/-! ## Calendar arithmetic

The source stores dates as pandas timestamps at day resolution and groups
daily usage by calendar month (`dt.to_period('M')`).  Dates are embedded as
integer day numbers (day 0 = 1970-01-01); the standard civil-calendar
conversions below supply the (year, month) key and the day-number of a
parsed day/month/year date. -/

/-- (year, month, day) of an integer day number (civil calendar). -/
def civilFromDays (z : ℤ) : ℤ × ℤ × ℤ :=
  let z2 := z + 719468
  let era := Int.fdiv z2 146097
  let doe := z2 - era * 146097
  let yoe := Int.fdiv (doe - Int.fdiv doe 1460 + Int.fdiv doe 36524 - Int.fdiv doe 146096) 365
  let y := yoe + era * 400
  let doy := doe - (365 * yoe + Int.fdiv yoe 4 - Int.fdiv yoe 100)
  let mp := Int.fdiv (5 * doy + 2) 153
  let d := doy - Int.fdiv (153 * mp + 2) 5 + 1
  let m := mp + (if mp < 10 then 3 else -9)
  (if m ≤ 2 then y + 1 else y, m, d)

/-- Integer day number of a civil-calendar (year, month, day). -/
def daysFromCivil (y m d : ℤ) : ℤ :=
  let y2 := if m ≤ 2 then y - 1 else y
  let era := Int.fdiv y2 400
  let yoe := y2 - era * 400
  let mp := if 2 < m then m - 3 else m + 9
  let doy := Int.fdiv (153 * mp + 2) 5 + d - 1
  let doe := yoe * 365 + Int.fdiv yoe 4 - Int.fdiv yoe 100 + doy
  era * 146097 + doe - 719468

/-- The year-month grouping key of src/app.py line 116
(`dt.to_period('M')`). -/
def monthKey (z : ℤ) : ℤ × ℤ := ((civilFromDays z).1, (civilFromDays z).2.1)

/-! ## Tariff plans and aggregation -/

/-- A tariff configuration (src/app.py lines 23-29): three energy rates in
cents per kWh and two daily supply charges in currency per day. -/
structure TariffPlan where
  anytime_rate : ℚ
  controlled_load_rate : ℚ
  solar_feed_in : ℚ
  supply_daily_charge : ℚ
  controlled_load_supply_daily_charge : ℚ
deriving DecidableEq, Repr

/-- src/app.py lines 16-29: the startup plan is the configuration file's
record when the file exists, else the hardcoded defaults. -/
def load_current_plan : Option TariffPlan → TariffPlan
  | some p => p
  | none =>
    { anytime_rate := 25
      controlled_load_rate := 18
      solar_feed_in := 8
      supply_daily_charge := 1.2
      controlled_load_supply_daily_charge := 0.5 }

/-- The tariff figures the user can edit in the session (src/app.py
lines 201-213): current-plan and comparison-plan number inputs. -/
structure SessionInputs where
  curr_anytime : ℚ
  curr_cl : ℚ
  curr_solar : ℚ
  curr_supply : ℚ
  curr_cl_supply : ℚ
  comp_anytime : ℚ
  comp_cl : ℚ
  comp_solar : ℚ
  comp_supply : ℚ
  comp_cl_supply : ℚ
deriving DecidableEq, Repr

/-- The reading types present in the data, in the role of
`df['Type'].unique()` (src/app.py line 94). -/
def typesOf (df : List Reading) : List String := (df.map (fun r => r.rtype)).dedup

/-- The full daily-usage table (src/app.py lines 93-112): the interpolator
run over every reading type's filtered sub-series. -/
def dailyUsageAll (df : List Reading) : List DailyUsagePoint :=
  (typesOf df).flatMap (fun rt => daily_usage_data rt (df.filter (fun r => decide (r.rtype = rt))))

/-- The year-month keys occurring in the daily-usage table (src/app.py
line 116). -/
def monthsOf (pts : List DailyUsagePoint) : List (ℤ × ℤ) :=
  (pts.map (fun p => monthKey p.date)).dedup

/-- src/app.py line 119: daily usage grouped by (year-month, type), summing
usage — the total for one such group. -/
def monthly_total (pts : List DailyUsagePoint) (m : ℤ × ℤ) (rt : String) : ℚ :=
  ((pts.filter (fun p => decide (p.rtype = rt ∧ monthKey p.date = m))).map (fun p => p.usage)).sum

/-- src/app.py line 127: the number of distinct data days observed in a
month (`groupby('Year-Month')['Date'].nunique()`). -/
def days_per_month (pts : List DailyUsagePoint) (m : ℤ × ℤ) : ℕ :=
  ((pts.filter (fun p => decide (monthKey p.date = m))).map (fun p => p.date)).dedup.length

/-- One month's cost figure (src/app.py lines 153-164): usage charges at the
startup plan's rates (cents/kWh, divided by 100), the daily supply charges
over the month's data days, minus the solar credit. -/
def month_cost (pts : List DailyUsagePoint) (plan : TariffPlan) (m : ℤ × ℤ) : ℚ :=
  monthly_total pts m "anytime" * (plan.anytime_rate / 100)
  + monthly_total pts m "controlled load" * (plan.controlled_load_rate / 100)
  + (plan.supply_daily_charge + plan.controlled_load_supply_daily_charge) * (days_per_month pts m : ℚ)
  - monthly_total pts m "solar" * (plan.solar_feed_in / 100)

/-- src/app.py lines 148-165: the per-month cost figures placed on the
monthly usage chart.  They are computed from the uploaded readings and the
startup plan only; the session's tariff inputs are not consulted. -/
def monthly_costs (df : List Reading) (startup_config : Option TariffPlan)
    (_inputs : SessionInputs) : List ((ℤ × ℤ) × ℚ) :=
  (monthsOf (dailyUsageAll df)).map
    (fun m => (m, month_cost (dailyUsageAll df) (load_current_plan startup_config) m))

/-! ## Annual projection and cost calculation -/

/-- Earliest date of the loaded data (src/app.py line 220). -/
def minDate : List Reading → ℤ
  | [] => 0
  | r :: rs => rs.foldl (fun a x => min a x.date) r.date

/-- Latest date of the loaded data (src/app.py line 221). -/
def maxDate : List Reading → ℤ
  | [] => 0
  | r :: rs => rs.foldl (fun a x => max a x.date) r.date

/-- src/app.py line 222: the whole observed window in days, over all types. -/
def daysInData (df : List Reading) : ℤ := maxDate df - minDate df

/-- The record returned by `calculate_annual_costs` (src/app.py
lines 244-254). -/
structure AnnualCalc where
  anytime_usage : ℚ
  cl_usage : ℚ
  solar_usage : ℚ
  anytime_cost : ℚ
  cl_cost : ℚ
  solar_credit : ℚ
  supply_cost : ℚ
  total_cost : ℚ
  days_in_data : ℤ
deriving DecidableEq, Repr

/-- src/app.py lines 228-234 with the dictionary lookup `.get(rt, 0)` of
lines 237-239: a type with at least two readings contributes
`(last - first) / days * 365`; any other type contributes 0. -/
def typeAnnualUsage (df : List Reading) (days : ℤ) (rt : String) : ℚ :=
  match (df.filter (fun r => decide (r.rtype = rt))).head?,
        (df.filter (fun r => decide (r.rtype = rt))).getLast? with
  | some f, some l =>
      if 2 ≤ (df.filter (fun r => decide (r.rtype = rt))).length then
        (l.value - f.value) / ((days : ℤ) : ℚ) * 365
      else 0
  | _, _ => 0

/-- src/app.py lines 218-254: the annual projection and cost breakdown.
`none` models the `return None` taken when the observed span is zero days
(and the undefined behaviour on an empty table). -/
def calculate_annual_costs (df : List Reading)
    (anytime_rate cl_rate solar_rate supply_charge cl_supply_charge : ℚ) : Option AnnualCalc :=
  if df = [] then none
  else if daysInData df = 0 then none
  else
    some
      { anytime_usage := typeAnnualUsage df (daysInData df) "anytime"
        cl_usage := typeAnnualUsage df (daysInData df) "controlled load"
        solar_usage := typeAnnualUsage df (daysInData df) "solar"
        anytime_cost := typeAnnualUsage df (daysInData df) "anytime" * (anytime_rate / 100)
        cl_cost := typeAnnualUsage df (daysInData df) "controlled load" * (cl_rate / 100)
        solar_credit := typeAnnualUsage df (daysInData df) "solar" * (solar_rate / 100)
        supply_cost := (supply_charge + cl_supply_charge) * 365
        total_cost := typeAnnualUsage df (daysInData df) "anytime" * (anytime_rate / 100)
          + typeAnnualUsage df (daysInData df) "controlled load" * (cl_rate / 100)
          + (supply_charge + cl_supply_charge) * 365
          - typeAnnualUsage df (daysInData df) "solar" * (solar_rate / 100)
        days_in_data := daysInData df }

/-- What the spec asks of one type's annual usage figure: with at least two
readings of the type it is `(last.value - first.value) / days_in_data * 365`,
with fewer it is zero. -/
def annual_usage_spec (df : List Reading) (rt : String) (u : ℚ) : Prop :=
  (∀ f l : Reading,
     (df.filter (fun r => decide (r.rtype = rt))).head? = some f →
     (df.filter (fun r => decide (r.rtype = rt))).getLast? = some l →
     2 ≤ (df.filter (fun r => decide (r.rtype = rt))).length →
     u = (l.value - f.value) / ((daysInData df : ℤ) : ℚ) * 365) ∧
  ((df.filter (fun r => decide (r.rtype = rt))).length < 2 → u = 0)

lemma typeAnnualUsage_spec (df : List Reading) (rt : String) :
    annual_usage_spec df rt (typeAnnualUsage df (daysInData df) rt) := by
  constructor
  · intro f l hf hl hlen
    simp [typeAnnualUsage, hf, hl, hlen]
  · intro hlen
    have hnot : ¬ 2 ≤ (df.filter (fun r => decide (r.rtype = rt))).length := by omega
    unfold typeAnnualUsage
    rcases hh : (df.filter (fun r => decide (r.rtype = rt))).head? with _ | f
    · simp [hh]
    · rcases hl : (df.filter (fun r => decide (r.rtype = rt))).getLast? with _ | l
      · simp [hh, hl]
      · simp [hh, hl, hnot]

/-- Claim C2: the cost calculator's formulas.  In the annual calculation the
five cost fields follow the spec's formulas with day count 365, and in the
monthly chart the month's cost figure follows them with the month's data-day
count; rates in cents/kWh are divided by 100 and the solar credit is
subtracted. -/
theorem claim_C2 (df : List Reading)
    (anytime_rate cl_rate solar_rate supply_charge cl_supply_charge : ℚ)
    (cres : AnnualCalc)
    (h : calculate_annual_costs df anytime_rate cl_rate solar_rate supply_charge cl_supply_charge
      = some cres) :
    cres.anytime_cost = cres.anytime_usage * anytime_rate / 100 ∧
    cres.cl_cost = cres.cl_usage * cl_rate / 100 ∧
    cres.solar_credit = cres.solar_usage * solar_rate / 100 ∧
    cres.supply_cost = (supply_charge + cl_supply_charge) * 365 ∧
    cres.total_cost = cres.anytime_cost + cres.cl_cost + cres.supply_cost - cres.solar_credit ∧
    (∀ (pts : List DailyUsagePoint) (plan : TariffPlan) (m : ℤ × ℤ),
      month_cost pts plan m =
        monthly_total pts m "anytime" * plan.anytime_rate / 100
        + monthly_total pts m "controlled load" * plan.controlled_load_rate / 100
        + (plan.supply_daily_charge + plan.controlled_load_supply_daily_charge)
            * (days_per_month pts m : ℚ)
        - monthly_total pts m "solar" * plan.solar_feed_in / 100) := by
  unfold calculate_annual_costs at h
  split_ifs at h
  obtain rfl := Option.some.inj h
  refine ⟨?_, ?_, ?_, rfl, rfl, ?_⟩
  · show typeAnnualUsage df (daysInData df) "anytime" * (anytime_rate / 100)
      = typeAnnualUsage df (daysInData df) "anytime" * anytime_rate / 100
    ring
  · show typeAnnualUsage df (daysInData df) "controlled load" * (cl_rate / 100)
      = typeAnnualUsage df (daysInData df) "controlled load" * cl_rate / 100
    ring
  · show typeAnnualUsage df (daysInData df) "solar" * (solar_rate / 100)
      = typeAnnualUsage df (daysInData df) "solar" * solar_rate / 100
    ring
  · intro pts plan m
    unfold month_cost
    ring

/-- Witness for C2: two "anytime" readings one day apart, value delta 10, at
anytime rate 10 c/kWh and a 1 currency/day supply charge. -/
theorem claim_C2_witness :
    (AnnualCalc.mk 3650 0 0 365 0 0 365 730 1).anytime_cost
      = (AnnualCalc.mk 3650 0 0 365 0 0 365 730 1).anytime_usage * 10 / 100 :=
  (claim_C2 [⟨0, "anytime", 0, "manual"⟩, ⟨1, "anytime", 10, "manual"⟩] 10 0 0 1 0
    (AnnualCalc.mk 3650 0 0 365 0 0 365 730 1)
    (by norm_num [calculate_annual_costs, typeAnnualUsage, daysInData, minDate, maxDate,
      List.find?_cons, List.filter_cons, List.cons_ne_nil,
      show ("anytime" : String) ≠ "controlled load" by decide,
      show ("anytime" : String) ≠ "solar" by decide])).1

/-- Claim C3: the annual projection.  A zero-day observed span (including an
empty table) yields no result; otherwise the result exists and each of the
three reported usage figures is `(last - first) / total_days * 365` for a
type with at least two readings and zero for a type with fewer. -/
theorem claim_C3 (df : List Reading)
    (anytime_rate cl_rate solar_rate supply_charge cl_supply_charge : ℚ)
    (_hs : df.Chain' (fun a b => a.date ≤ b.date)) :
    (daysInData df = 0 →
      calculate_annual_costs df anytime_rate cl_rate solar_rate supply_charge cl_supply_charge
        = none) ∧
    (df ≠ [] → daysInData df ≠ 0 →
      (calculate_annual_costs df anytime_rate cl_rate solar_rate supply_charge
        cl_supply_charge).isSome = true) ∧
    (∀ cres,
      calculate_annual_costs df anytime_rate cl_rate solar_rate supply_charge cl_supply_charge
        = some cres →
      annual_usage_spec df "anytime" cres.anytime_usage ∧
      annual_usage_spec df "controlled load" cres.cl_usage ∧
      annual_usage_spec df "solar" cres.solar_usage) := by
  refine ⟨?_, ?_, ?_⟩
  · intro h0
    by_cases hdf : df = []
    · simp [calculate_annual_costs, hdf]
    · simp [calculate_annual_costs, hdf, h0]
  · intro hdf h0
    simp [calculate_annual_costs, hdf, h0]
  · intro cres hc
    unfold calculate_annual_costs at hc
    split_ifs at hc
    obtain rfl := Option.some.inj hc
    refine ⟨?_, ?_, ?_⟩
    · show annual_usage_spec df "anytime" (typeAnnualUsage df (daysInData df) "anytime")
      exact typeAnnualUsage_spec df "anytime"
    · show annual_usage_spec df "controlled load"
        (typeAnnualUsage df (daysInData df) "controlled load")
      exact typeAnnualUsage_spec df "controlled load"
    · show annual_usage_spec df "solar" (typeAnnualUsage df (daysInData df) "solar")
      exact typeAnnualUsage_spec df "solar"

/-- Witness for C3: a two-reading table spanning one day produces a result. -/
theorem claim_C3_witness :
    (calculate_annual_costs [⟨0, "anytime", 0, "manual"⟩, ⟨1, "anytime", 10, "manual"⟩]
      10 0 0 1 0).isSome = true :=
  (claim_C3 [⟨0, "anytime", 0, "manual"⟩, ⟨1, "anytime", 10, "manual"⟩] 10 0 0 1 0
    (by simp)).2.1 (by simp) (by decide)

/-- Claim C10: the monthly cost figures on the usage chart depend only on
the uploaded readings and the plan loaded at startup (the configuration
file's record, or the hardcoded defaults when it is absent); two runs
differing only in the session-edited tariff inputs produce identical
figures. -/
theorem claim_C10 (df : List Reading) (startup_config : Option TariffPlan)
    (s1 s2 : SessionInputs) :
    monthly_costs df startup_config s1 = monthly_costs df startup_config s2 ∧
    load_current_plan none = ⟨25, 18, 8, 1.2, 0.5⟩ :=
  ⟨rfl, rfl⟩

/-- Witness for C9: two rows of the same type on day 3 with different
values; the duplicate pair contributes nothing. -/
theorem claim_C9_witness :
    daily_usage_data "anytime" [⟨3, "anytime", 5, "manual"⟩, ⟨3, "anytime", 7, "bill"⟩]
      = daily_usage_data "anytime" [⟨3, "anytime", 7, "bill"⟩] :=
  (claim_C9 "anytime" ⟨3, "anytime", 5, "manual"⟩ ⟨3, "anytime", 7, "bill"⟩ [] rfl).1

/-! ## Day coverage of the interpolation (claim C4) -/

lemma countP_range_eq (k : ℤ) (n : ℕ) :
    (List.range n).countP (fun (day : ℕ) => decide ((day : ℤ) = k))
      = if 0 ≤ k ∧ k < (n : ℤ) then 1 else 0 := by
  induction n with
  | zero =>
    simp only [List.range_zero, List.countP_nil]
    rw [if_neg (by omega)]
  | succ n ih =>
    rw [List.range_succ, List.countP_append, ih]
    simp only [List.countP_cons, List.countP_nil, decide_eq_true_eq]
    split_ifs <;> omega

lemma pair_count (rt : String) (r1 r2 : Reading) (d : ℤ) :
    ((pairUsage rt r1 r2).filter (fun p => decide (p.date = d))).length
      = if r1.date ≤ d ∧ d < r2.date then 1 else 0 := by
  unfold pairUsage
  rw [← List.countP_eq_length_filter, List.countP_map]
  have hcong : ∀ day ∈ List.range (r2.date - r1.date).toNat,
      (((fun p : DailyUsagePoint => decide (p.date = d)) ∘
        (fun (day : ℕ) =>
          ({ date := r1.date + (day : ℤ), rtype := rt, usage := daily_avg r1 r2 }
            : DailyUsagePoint))) day = true)
        ↔ ((fun (day : ℕ) => decide ((day : ℤ) = d - r1.date)) day = true) := by
    intro day _
    simp only [Function.comp_apply, decide_eq_true_eq]
    show r1.date + (day : ℤ) = d ↔ (day : ℤ) = d - r1.date
    omega
  rw [List.countP_congr hcong, countP_range_eq]
  exact if_congr (by omega) rfl rfl

lemma chain_head_le_last : ∀ (l : List Reading),
    l.Chain' (fun a b => a.date ≤ b.date) →
    ∀ f g : Reading, l.head? = some f → l.getLast? = some g → f.date ≤ g.date := by
  intro l
  induction l with
  | nil => intro _ f g hf _; cases hf
  | cons a t ih =>
    intro h f g hf hg
    have hfa : a = f := by simpa using hf
    subst hfa
    cases t with
    | nil =>
      have hga : a = g := by simpa using hg
      subst hga
      exact le_refl _
    | cons b t2 =>
      rw [List.chain'_cons] at h
      have hg2 : (b :: t2).getLast? = some g := by
        rw [← List.getLast?_cons_cons]
        exact hg
      exact le_trans h.1 (ih h.2 b g rfl hg2)

lemma daily_count (rt : String) : ∀ (l : List Reading),
    l.Chain' (fun a b => a.date ≤ b.date) →
    ∀ (f g : Reading), l.head? = some f → l.getLast? = some g → ∀ d : ℤ,
    ((daily_usage_data rt l).filter (fun p => decide (p.date = d))).length
      = if f.date ≤ d ∧ d < g.date then 1 else 0 := by
  intro l
  induction l with
  | nil => intro _ f g hf _ _; cases hf
  | cons r1 t ih =>
    intro h f g hf hg d
    have hfr : r1 = f := by simpa using hf
    subst hfr
    cases t with
    | nil =>
      have hgr : r1 = g := by simpa using hg
      subst hgr
      rw [if_neg (by omega)]
      rfl
    | cons r2 t2 =>
      rw [List.chain'_cons] at h
      have hg2 : (r2 :: t2).getLast? = some g := by
        rw [← List.getLast?_cons_cons]
        exact hg
      have hle : r2.date ≤ g.date := chain_head_le_last (r2 :: t2) h.2 r2 g rfl hg2
      have hcount2 := ih h.2 r2 g rfl hg2 d
      show ((pairUsage rt r1 r2 ++ daily_usage_data rt (r2 :: t2)).filter
        (fun p => decide (p.date = d))).length = _
      rw [List.filter_append, List.length_append, pair_count, hcount2]
      have h12 : r1.date ≤ r2.date := h.1
      split_ifs <;> omega

/-- Claim C4: over a date-sorted reading list of one type, the interpolator
emits exactly one point per calendar day in `[first.date, last.date)` — each
such day once, no other day at all — and a list with fewer than two readings
emits nothing. -/
theorem claim_C4 (rt : String) (l : List Reading)
    (hs : l.Chain' (fun a b => a.date ≤ b.date)) :
    (l.length < 2 → daily_usage_data rt l = []) ∧
    (∀ (f g : Reading), l.head? = some f → l.getLast? = some g → ∀ d : ℤ,
      ((daily_usage_data rt l).filter (fun p => decide (p.date = d))).length
        = if f.date ≤ d ∧ d < g.date then 1 else 0) := by
  constructor
  · intro hlen
    match l with
    | [] => rfl
    | [r] => rfl
    | r1 :: r2 :: t =>
      simp only [List.length_cons] at hlen
      omega
  · exact daily_count rt l hs

/-- Witness for C4: three sorted readings on days 0, 2, 3; day 1 receives
exactly one point. -/
theorem claim_C4_witness :
    ((daily_usage_data "anytime"
        [⟨0, "anytime", 0, "manual"⟩, ⟨2, "anytime", 10, "manual"⟩, ⟨3, "anytime", 16, "bill"⟩]).filter
      (fun p => decide (p.date = 1))).length
      = if (0 : ℤ) ≤ 1 ∧ (1 : ℤ) < 3 then 1 else 0 :=
  (claim_C4 "anytime"
    [⟨0, "anytime", 0, "manual"⟩, ⟨2, "anytime", 10, "manual"⟩, ⟨3, "anytime", 16, "bill"⟩]
    (by simp [List.chain'_cons])).2
    ⟨0, "anytime", 0, "manual"⟩ ⟨3, "anytime", 16, "bill"⟩ rfl rfl 1

/-! ## Aggregation consistency (claim C5) -/

lemma filter_decide_and {α : Type} (p q : α → Prop) [DecidablePred p] [DecidablePred q] :
    ∀ l : List α, l.filter (fun a => decide (p a ∧ q a))
      = (l.filter (fun a => decide (p a))).filter (fun a => decide (q a)) := by
  intro l
  rw [List.filter_filter]
  apply List.filter_congr
  intro a _
  by_cases hp : p a <;> by_cases hq : q a <;> simp [hp, hq]

lemma sum_fiber {κ : Type} [DecidableEq κ] (key : DailyUsagePoint → κ) (f : DailyUsagePoint → ℚ) :
    ∀ (l : List DailyUsagePoint) (s : Finset κ), (∀ a ∈ l, key a ∈ s) →
      ∑ k in s, ((l.filter (fun a => decide (key a = k))).map f).sum = (l.map f).sum := by
  intro l
  induction l with
  | nil => intro s _; simp
  | cons a t ih =>
    intro s hs
    have hmem : key a ∈ s := hs a (List.mem_cons_self a t)
    have ht : ∀ b ∈ t, key b ∈ s := fun b hb => hs b (List.mem_cons_of_mem a hb)
    have hsplit : ∀ k ∈ s, (((a :: t).filter (fun x => decide (key x = k))).map f).sum
        = (if key a = k then f a else 0) + ((t.filter (fun x => decide (key x = k))).map f).sum := by
      intro k _
      by_cases hk : key a = k
      · simp [List.filter_cons, hk]
      · simp [List.filter_cons, hk]
    rw [Finset.sum_congr rfl hsplit, Finset.sum_add_distrib, ih s ht,
      Finset.sum_ite_eq s (key a) (fun _ => f a), if_pos hmem]
    simp

/-- Claim C5: for every reading type, the monthly totals summed over all
months occurring in the daily-usage data equal the total interpolated usage
of that type over the whole span. -/
theorem claim_C5 (pts : List DailyUsagePoint) (rt : String) :
    ∑ m in ((pts.map (fun p => monthKey p.date)).toFinset), monthly_total pts m rt
      = ((pts.filter (fun p => decide (p.rtype = rt))).map (fun p => p.usage)).sum := by
  have hsplit : ∀ m ∈ (pts.map (fun p => monthKey p.date)).toFinset, monthly_total pts m rt
      = (((pts.filter (fun p => decide (p.rtype = rt))).filter
          (fun p => decide (monthKey p.date = m))).map (fun p => p.usage)).sum := by
    intro m _
    unfold monthly_total
    rw [filter_decide_and (fun p : DailyUsagePoint => p.rtype = rt)
      (fun p => monthKey p.date = m) pts]
  rw [Finset.sum_congr rfl hsplit]
  apply sum_fiber (fun p => monthKey p.date) (fun p => p.usage)
  intro a ha
  rw [List.mem_toFinset]
  exact List.mem_map.mpr ⟨a, List.mem_of_mem_filter ha, rfl⟩

/-! ## Reading parser (claims C7 and C8)

src/app.py lines 34-41: the Reading column is cleaned
(`str.replace(',', '').str.strip()`) and converted to a number, the Date
column is parsed with format `%d/%m/%Y`, a missing Reading Source defaults
to `"manual"`, and the table is sorted ascending by date.  Any failure
raises before anything is returned, so loading is all-or-nothing.  The
numeric conversion (pandas `astype(float)`) is embedded as a plain decimal
parser — optional sign, digits, optional decimal point — which covers the
numeric strings the app's data model uses. -/

def isDigitChar (c : Char) : Bool := decide ('0' ≤ c ∧ c ≤ '9')

def digitVal (c : Char) : ℕ := c.toNat - '0'.toNat

def natOfDigits (cs : List Char) : ℕ := cs.foldl (fun a c => 10 * a + digitVal c) 0

/-- The whitespace stripped by `str.strip()`. -/
def isSpaceChar (c : Char) : Bool := decide (c = ' ' ∨ c = '\t' ∨ c = '\n' ∨ c = '\r')

/-- `str.replace(',', '')`: drop every comma. -/
def removeCommas (cs : List Char) : List Char := cs.filter (fun c => decide (c ≠ ','))

/-- `str.strip()`: drop leading and trailing whitespace. -/
def stripChars (cs : List Char) : List Char :=
  ((cs.dropWhile isSpaceChar).reverse.dropWhile isSpaceChar).reverse

/-- Decimal number without sign: digits, optionally a point and digits. -/
def parseUnsigned (cs : List Char) : Option ℚ :=
  match cs.dropWhile isDigitChar with
  | [] =>
      if cs.takeWhile isDigitChar = [] then none
      else some ((natOfDigits (cs.takeWhile isDigitChar) : ℕ) : ℚ)
  | '.' :: frac =>
      if (cs.takeWhile isDigitChar = [] ∧ frac = []) ∨ ¬ (frac.all isDigitChar = true) then none
      else some ((natOfDigits (cs.takeWhile isDigitChar) : ℚ)
        + (natOfDigits frac : ℚ) / (10 : ℚ) ^ frac.length)
  | _ => none

/-- Decimal number with optional sign; `none` on non-numeric residue. -/
def parseDecimal (cs : List Char) : Option ℚ :=
  match cs with
  | '-' :: rest => (parseUnsigned rest).map (fun q => -q)
  | '+' :: rest => parseUnsigned rest
  | _ => parseUnsigned cs

/-- The Reading-column cleaning of src/app.py line 37: commas removed, then
whitespace stripped. -/
def cleanChars (cs : List Char) : List Char := stripChars (removeCommas cs)

/-- src/app.py line 37: clean the raw reading string and convert it. -/
def parseReadingValue (s : String) : Option ℚ := parseDecimal (cleanChars s.data)

def splitSlashAux : List Char → List Char → List (List Char)
  | [], acc => [acc.reverse]
  | c :: cs, acc =>
      if c = '/' then acc.reverse :: splitSlashAux cs [] else splitSlashAux cs (c :: acc)

def splitSlash (cs : List Char) : List (List Char) := splitSlashAux cs []

def parseNatDigits (cs : List Char) : Option ℕ :=
  if cs ≠ [] ∧ cs.all isDigitChar = true then some (natOfDigits cs) else none

def isLeapYear (y : ℤ) : Bool := decide ((y % 4 = 0 ∧ ¬ y % 100 = 0) ∨ y % 400 = 0)

def daysInMonthOf (y m : ℤ) : ℤ :=
  if m = 2 then (if isLeapYear y then 29 else 28)
  else if m = 4 ∨ m = 6 ∨ m = 9 ∨ m = 11 then 30
  else 31

/-- src/app.py line 38 (`pd.to_datetime(..., format='%d/%m/%Y')`): a date in
day/month/year order, slash-separated, calendar-valid; any other shape
fails. -/
def parseDateDMY (s : String) : Option ℤ :=
  match splitSlash s.data with
  | [ds, ms, ys] =>
    match parseNatDigits ds, parseNatDigits ms, parseNatDigits ys with
    | some d, some m, some y =>
        if ds.length ≤ 2 ∧ ms.length ≤ 2 ∧ ys.length = 4
            ∧ 1 ≤ m ∧ m ≤ 12 ∧ 1 ≤ d ∧ (d : ℤ) ≤ daysInMonthOf (y : ℤ) (m : ℤ)
        then some (daysFromCivil (y : ℤ) (m : ℤ) (d : ℤ))
        else none
    | _, _, _ => none
  | _ => none

/-- One raw CSV row: Date, Type, Reading, optional Reading Source. -/
structure RawRow where
  date : String
  rtype : String
  reading : String
  source : Option String
deriving DecidableEq, Repr

/-- Parse one row; a missing source defaults to `"manual"` (line 39). -/
def parseRow (row : RawRow) : Option Reading :=
  match parseDateDMY row.date, parseReadingValue row.reading with
  | some d, some v => some ⟨d, row.rtype, v, row.source.getD "manual"⟩
  | _, _ => none

/-- Parse every row; the first failing row fails the whole load. -/
def parseRows : List RawRow → Option (List Reading)
  | [] => some []
  | row :: rest =>
    match parseRow row, parseRows rest with
    | some r, some rs => some (r :: rs)
    | _, _ => none

/-- Ascending-by-date order on readings (src/app.py line 40). -/
def dateLE (a b : Reading) : Prop := a.date ≤ b.date

instance : DecidableRel dateLE := fun a b => Int.decLe a.date b.date

instance : IsTotal Reading dateLE := ⟨fun a b => le_total a.date b.date⟩

instance : IsTrans Reading dateLE := ⟨fun _ _ _ h1 h2 => le_trans h1 h2⟩

/-- src/app.py lines 34-41: parse all rows, then sort ascending by date;
`none` models the `ParseError` raised on any malformed row. -/
def load_data (rows : List RawRow) : Option (List Reading) :=
  (parseRows rows).map (fun l => l.insertionSort dateLE)

lemma dropWhile_space_append (x : List Char) :
    (x ++ [' ']).dropWhile isSpaceChar
      = if (x.dropWhile isSpaceChar).isEmpty = true then []
        else x.dropWhile isSpaceChar ++ [' '] := by
  induction x with
  | nil => rfl
  | cons c cs ih =>
    by_cases hc : isSpaceChar c = true
    · simpa [List.dropWhile_cons, hc] using ih
    · simp [List.dropWhile_cons, hc]

lemma stripChars_append_space (x : List Char) : stripChars (x ++ [' ']) = stripChars x := by
  unfold stripChars
  rw [dropWhile_space_append]
  by_cases he : (x.dropWhile isSpaceChar).isEmpty = true
  · rw [if_pos he]
    have hx : x.dropWhile isSpaceChar = [] := by rwa [List.isEmpty_iff] at he
    rw [hx]
  · rw [if_neg he, List.reverse_append]
    show (List.dropWhile isSpaceChar
      (' ' :: (x.dropWhile isSpaceChar).reverse)).reverse = _
    rw [List.dropWhile_cons, if_pos (by decide)]

lemma parseUnsigned_sound : ∀ (cs : List Char) (q : ℚ), parseUnsigned cs = some q →
    cs.all (fun c => isDigitChar c || decide (c = '.')) = true := by
  intro cs q h
  have hsplit : cs.takeWhile isDigitChar ++ cs.dropWhile isDigitChar = cs :=
    List.takeWhile_append_dropWhile isDigitChar cs
  have htake : (cs.takeWhile isDigitChar).all (fun c => isDigitChar c || decide (c = '.'))
      = true := by
    rw [List.all_eq_true]
    intro c hc
    rw [List.mem_takeWhile_imp hc]
    rfl
  have hdrop : (cs.dropWhile isDigitChar).all (fun c => isDigitChar c || decide (c = '.'))
      = true := by
    unfold parseUnsigned at h
    split at h
    · rename_i heq
      rw [heq]
      rfl
    · rename_i frac heq
      rw [heq]
      split_ifs at h with hcond
      push_neg at hcond
      rw [List.all_cons]
      have hfrac : frac.all (fun c => isDigitChar c || decide (c = '.')) = true := by
        rw [List.all_eq_true]
        intro c hc
        rw [List.all_eq_true.mp hcond.2 c hc]
        rfl
      rw [hfrac]
      rfl
    · exact absurd h (by simp)
  rw [← hsplit, List.all_append, htake, hdrop]
  rfl

/-- Claim C7: the parser strips the formatting characters — commas anywhere
and surrounding whitespace — before converting the reading string; a numeric
result can only come from a residue of digits, point and sign (so a
non-numeric residue fails); the string `" 66,444 "` parses to exactly
`66444.0` and a non-numeric string such as `"12a3"` fails. -/
theorem claim_C7 :
    parseReadingValue " 66,444 " = some 66444 ∧
    (∀ l1 l2 : List Char, parseDecimal (cleanChars (l1 ++ ',' :: l2))
        = parseDecimal (cleanChars (l1 ++ l2))) ∧
    (∀ l : List Char, parseDecimal (cleanChars (' ' :: l)) = parseDecimal (cleanChars l)) ∧
    (∀ l : List Char, parseDecimal (cleanChars (l ++ [' '])) = parseDecimal (cleanChars l)) ∧
    (∀ (cs : List Char) (q : ℚ), parseDecimal cs = some q →
      cs.all (fun c => isDigitChar c || decide (c = '.') || decide (c = '+')
        || decide (c = '-')) = true) ∧
    parseReadingValue "12a3" = none := by
  have hmono : ∀ (l : List Char), l.all (fun c => isDigitChar c || decide (c = '.')) = true →
      l.all (fun c => isDigitChar c || decide (c = '.') || decide (c = '+')
        || decide (c = '-')) = true := by
    intro l hl
    rw [List.all_eq_true] at hl ⊢
    intro c hc
    rw [hl c hc]
    rfl
  refine ⟨by decide, ?_, ?_, ?_, ?_, by decide⟩
  · intro l1 l2
    suffices h : removeCommas (l1 ++ ',' :: l2) = removeCommas (l1 ++ l2) by
      unfold cleanChars
      rw [h]
    unfold removeCommas
    rw [List.filter_append, List.filter_append, List.filter_cons, if_neg (by decide)]
  · intro l
    unfold cleanChars removeCommas stripChars
    rw [List.filter_cons, if_pos (by decide), List.dropWhile_cons, if_pos (by decide)]
  · intro l
    unfold cleanChars removeCommas
    rw [List.filter_append, show List.filter (fun c => decide (c ≠ ',')) [' '] = [' '] from rfl]
    rw [stripChars_append_space]
  · intro cs q h
    unfold parseDecimal at h
    split at h
    · rename_i rest
      rcases hur : parseUnsigned rest with _ | q2
      · rw [hur] at h
        cases h
      · rw [List.all_cons, hmono rest (parseUnsigned_sound rest q2 hur)]
        rfl
    · rename_i rest
      rw [List.all_cons, hmono rest (parseUnsigned_sound rest q h)]
      rfl
    · exact hmono cs (parseUnsigned_sound cs q h)

/-- Witness for C7: the spec's round-trip example evaluated. -/
theorem claim_C7_witness : parseReadingValue " 66,444 " = some 66444 :=
  claim_C7.1

lemma parseRows_none : ∀ (rows : List RawRow),
    (∃ row ∈ rows, parseRow row = none) → parseRows rows = none := by
  intro rows
  induction rows with
  | nil => rintro ⟨row, hmem, _⟩; cases hmem
  | cons a t ih =>
    rintro ⟨row, hmem, hnone⟩
    rcases List.mem_cons.mp hmem with rfl | hmem2
    · simp [parseRows, hnone]
    · rcases hpa : parseRow a with _ | r
      · simp [parseRows, hpa]
      · simp [parseRows, hpa, ih ⟨row, hmem2, hnone⟩]

lemma parseRows_length : ∀ (rows : List RawRow) (ps : List Reading),
    parseRows rows = some ps → ps.length = rows.length := by
  intro rows
  induction rows with
  | nil =>
    intro ps h
    cases h
    rfl
  | cons a t ih =>
    intro ps h
    rcases hpa : parseRow a with _ | r
    · simp [parseRows, hpa] at h
    · rcases hpt : parseRows t with _ | rs
      · simp [parseRows, hpa, hpt] at h
      · simp only [parseRows, hpa, hpt] at h
        obtain rfl := Option.some.inj h
        simp [List.length_cons, ih rs hpt]

/-- Claim C8: loading is all-or-nothing.  Any malformed row (bad
day/month/year date or non-numeric cleaned reading makes its `parseRow`
fail) aborts the whole load with no readings at all; otherwise every row is
loaded — the result is a permutation of the rowwise parses, of the same
length as the input — and sorted ascending by date. -/
theorem claim_C8 (rows : List RawRow) :
    ((∃ row ∈ rows, parseRow row = none) → load_data rows = none) ∧
    (∀ ps : List Reading, parseRows rows = some ps →
      ∃ rs : List Reading, load_data rows = some rs ∧ rs.Perm ps ∧
        List.Sorted dateLE rs ∧ rs.length = rows.length) := by
  constructor
  · intro hbad
    unfold load_data
    rw [parseRows_none rows hbad]
    rfl
  · intro ps hps
    refine ⟨List.insertionSort dateLE ps, ?_, ?_, ?_, ?_⟩
    · unfold load_data
      rw [hps]
      rfl
    · exact List.perm_insertionSort dateLE ps
    · exact List.sorted_insertionSort dateLE ps
    · rw [(List.perm_insertionSort dateLE ps).length_eq]
      exact parseRows_length rows ps hps

/-- Witness for C8: a two-row file — dates `17/12/2024` and `1/1/2025` (day
numbers 20074 and 20089), readings `" 66,444 "` and `"66,700"`, one source
missing — loads completely, sorted, with the missing source defaulted. -/
theorem claim_C8_witness :
    load_data [⟨"17/12/2024", "anytime", " 66,444 ", some "bill"⟩,
               ⟨"1/1/2025", "anytime", "66,700", none⟩]
      = some [⟨20074, "anytime", 66444, "bill"⟩, ⟨20089, "anytime", 66700, "manual"⟩] := by
  decide
